import Mathlib

/-!
# InsuMyWay recommendation engine — formal model

Shallow embedding of the ML recommendation engine and its resilience layer
(`ai_recommendation_engine.py`, `ml_error_handler.py`, `unified_app.py`,
`interaction_tracker.py`, `ml_api.py`).  Python floats are modelled as `ℚ`,
database query results and external library calls (sklearn fits) appear as
explicit inputs, and fallible calls return `Except`.
-/

namespace InsuMyWay

/-! ## Interaction weighting (`TrueAIRecommendationEngine.collect_training_data`) -/

/-- One row of the `UserInteraction` query used as training data. -/
structure InteractionRow where
  user_id : Nat
  policy_id : Nat
  interaction_type : String
  interaction_value : ℚ
  deriving Repr, DecidableEq

/-- The `interaction_weights` dict literal in `collect_training_data`. -/
def interaction_weights : List (String × ℚ) :=
  [("view", 1), ("click", 2), ("add_to_cart", 3), ("purchase", 5),
   ("rate", 4), ("dismiss", -1)]

/-- Models `interaction_weights.get(t, 1.0)`: dictionary lookup with default 1.0. -/
def typeWeight (t : String) : ℚ :=
  match (interaction_weights.find? (fun p => p.1 = t)) with
  | some p => p.2
  | none => 1

/-- Models `row['interaction_value'] * interaction_weights.get(row['interaction_type'], 1.0)`. -/
def weighted_score (r : InteractionRow) : ℚ :=
  r.interaction_value * typeWeight r.interaction_type

/-- Models `collect_training_data` adds a `weighted_score` column to the interaction
rows; no row is filtered out or rejected. -/
def collect_training_data (rows : List InteractionRow) : List (InteractionRow × ℚ) :=
  rows.map (fun r => (r, weighted_score r))

/-! ## Circuit breaker (`MLCircuitBreaker`, `ml_error_handler.py`) -/

/-- The mutable fields of `MLCircuitBreaker`.  `state` is one of the strings
`"closed"`, `"open"`, `"half-open"` exactly as in the Python source;
`last_failure_time` is an abstract timestamp. -/
structure Breaker where
  failure_threshold : Nat
  failure_count : Nat
  last_failure_time : Option Nat
  state : String
  deriving Repr, DecidableEq

/-- The freshly constructed global breaker: `MLCircuitBreaker()` with the
default `failure_threshold=5`. -/
def initialBreaker : Breaker :=
  { failure_threshold := 5, failure_count := 0, last_failure_time := none,
    state := "closed" }

/-- Outcome of one `MLCircuitBreaker.call`. -/
inductive CallOutcome where
  /-- the wrapped function ran and returned normally -/
  | success : CallOutcome
  /-- the wrapped function ran and raised; the exception is re-raised -/
  | predictionError : CallOutcome
  /-- short-circuited: `MLError("Circuit breaker is open - ML system temporarily disabled")` -/
  | circuitOpenError : CallOutcome
  deriving Repr, DecidableEq

/-- Models `MLCircuitBreaker._should_attempt_reset`: true when no failure was
recorded, otherwise whether the recovery timeout has elapsed
(`(utcnow - last_failure_time).seconds > recovery_timeout`, given here
as the boolean `elapsed`). -/
def should_attempt_reset (b : Breaker) (elapsed : Bool) : Bool :=
  match b.last_failure_time with
  | none => true
  | some _ => elapsed

/-- Models `MLCircuitBreaker._on_success`. -/
def on_success (b : Breaker) : Breaker :=
  { b with failure_count := 0, state := "closed" }

/-- Models `MLCircuitBreaker._on_failure` at time `now`. -/
def on_failure (b : Breaker) (now : Nat) : Breaker :=
  let b := { b with failure_count := b.failure_count + 1,
                    last_failure_time := some now }
  if b.failure_count ≥ b.failure_threshold then { b with state := "open" } else b

/-- Models `MLCircuitBreaker.call`.  `funcFails` says whether the wrapped function
would raise (a `PredictionError`) if invoked; `elapsed` whether the recovery
timeout has elapsed since the last failure.  Returns whether the underlying
function was invoked, the outcome, and the new breaker state. -/
def cbCall (b : Breaker) (now : Nat) (elapsed : Bool) (funcFails : Bool) :
    Bool × CallOutcome × Breaker :=
  let b :=
    if b.state = "open" then
      if should_attempt_reset b elapsed then { b with state := "half-open" } else b
    else b
  if b.state = "open" then
    (false, .circuitOpenError, b)
  else
    if funcFails then
      (true, .predictionError, on_failure b now)
    else
      (true, .success, on_success b)

/-- Run `n` consecutive `call`s against a function that always raises
`PredictionError`, with the recovery timeout never elapsed. -/
def cbFailRun (b : Breaker) : Nat → Breaker
  | 0 => b
  | n + 1 => cbFailRun ((cbCall b 0 false true).2.2) n

/-! ## Health checker (`MLHealthChecker.check_ml_system_health`) -/

/-- Inputs of one health-check run: whether importing/constructing the engine
succeeds, whether the database query succeeds, and the length of the global
error handler's rolling `error_log`.  (The model-file and data-quality checks
never touch `overall_status` and are omitted from the status computation.) -/
structure HealthInputs where
  ml_engine_ok : Bool
  db_ok : Bool
  error_log_len : Nat
  deriving Repr, DecidableEq

/-- Models `MLErrorHandler.get_recent_errors(limit)` returns the last `limit`
entries of the rolling log, so its length is `min log_len limit`. -/
def recent_errors_count (log_len limit : Nat) : Nat := min log_len limit

/-- The `overall_status` computed by `check_ml_system_health`, following the
source's sequential overwrites: `'healthy'` initially, `'degraded'` if the
engine check fails, `'unhealthy'` if the database check fails, and finally
`'degraded'` if `len(get_recent_errors(5)) > 3`. -/
def check_ml_system_health (i : HealthInputs) : String :=
  let s := "healthy"
  let s := if i.ml_engine_ok then s else "degraded"
  let s := if i.db_ok then s else "unhealthy"
  let s := if recent_errors_count i.error_log_len 5 > 3 then "degraded" else s
  s

/-! ## Python dictionaries keyed by policy id

`get_ai_recommendations` accumulates the blended scores in a `dict`.  Python
dicts preserve insertion order, so the model is an association list with
distinct keys: updating an existing key keeps its position, a new key is
appended at the end. -/

/-- Models `d.get(k, 0)`. -/
def dictGet (d : List (Nat × ℚ)) (k : Nat) : ℚ :=
  match d.find? (fun p => p.1 = k) with
  | some p => p.2
  | none => 0

/-- Models `d[k] = d.get(k, 0) + v`. -/
def dictAdd (d : List (Nat × ℚ)) (k : Nat) (v : ℚ) : List (Nat × ℚ) :=
  if d.any (fun p => p.1 = k) then
    d.map (fun p => if p.1 = k then (p.1, p.2 + v) else p)
  else
    d ++ [(k, dictGet d k + v)]

/-- The loop `for policy_id, score in recs: combined[policy_id] =
combined.get(policy_id, 0) + score * w`. -/
def addWeighted (w : ℚ) (recs : List (Nat × ℚ)) (d : List (Nat × ℚ)) :
    List (Nat × ℚ) :=
  recs.foldl (fun d p => dictAdd d p.1 (p.2 * w)) d

/-- Models `combined_scores` in `get_ai_recommendations`: collaborative results at
weight 0.4, then content at 0.3, then hybrid at 0.3. -/
def combined_scores (collab content hybrid : List (Nat × ℚ)) : List (Nat × ℚ) :=
  addWeighted (3/10) hybrid (addWeighted (3/10) content (addWeighted (2/5) collab []))

/-- Models `recs`'s score for a policy: the unique entry, else 0 (absence from a
sub-model's list is a zero contribution). -/
def subScore (recs : List (Nat × ℚ)) (k : Nat) : ℚ := dictGet recs k

/-! ## Stable sorting

Python's `sorted(..., key=lambda x: x[1], reverse=True)` and
`list.sort(key=..., reverse=True)` are stable: among equal keys the original
order is preserved.  An insertion sort that inserts an element before the
first strictly-smaller key models this exactly. -/

/-- The descending-key comparison used by the sorts: `a` may precede `b`
when `a`'s key is at least `b`'s. -/
def descKey (f : α → ℚ) (a b : α) : Prop := f b ≤ f a

instance (f : α → ℚ) : DecidableRel (descKey f) :=
  fun a b => inferInstanceAs (Decidable (f b ≤ f a))

instance (f : α → ℚ) : IsTotal α (descKey f) :=
  ⟨fun a b => (le_total (f b) (f a)).imp id id⟩

instance (f : α → ℚ) : IsTrans α (descKey f) :=
  ⟨fun _ _ _ h1 h2 => le_trans h2 h1⟩

/-- Stable sort, key descending: an element is inserted before the first
element with a strictly smaller key, so earlier elements stay in front of
equal-keyed later ones — exactly CPython's stable `sorted`/`list.sort` with
`reverse=True`. -/
def sortDescBy (f : α → ℚ) (l : List α) : List α :=
  l.insertionSort (descKey f)

/-- The ranking part of `get_ai_recommendations`: blend the three sub-model
lists, sort by combined score descending (stable within ties), keep the top
`n_recommendations`. -/
def ai_ranking (collab content hybrid : List (Nat × ℚ)) (n : Nat) :
    List (Nat × ℚ) :=
  (sortDescBy (fun p => p.2) (combined_scores collab content hybrid)).take n

/-- The Python default for `n_recommendations` in `get_ai_recommendations`. -/
def default_n_recommendations : Nat := 10

/-- Models `ml_api.get_user_recommendations`: `limit = min(limit, 50)`. -/
def api_limit (requested : Nat) : Nat := min requested 50

/-- The display clamp `min(100, max(0, score * 100))` applied to each blended
score in `get_ai_recommendations`. -/
def display_score (s : ℚ) : ℚ := min 100 (max 0 (s * 100))

/-! ## Rule-based fallback recommender
(`MLFallbackSystem.get_fallback_recommendations`, `ml_error_handler.py`) -/

/-- The user profile fields the fallback scorer reads.  `none` models a
falsy Python value (`None`, `0`, `""`), matching tests like `if user.age:`
and `if user.occupation:`. -/
structure FUser where
  age : Option Nat
  occupation : Option String
  marital_status : Option String
  deriving Repr, DecidableEq

/-- The policy fields the fallback scorer reads. -/
structure FPolicy where
  id : Nat
  min_age : Nat
  max_age : Nat
  ptype : String
  deriving Repr, DecidableEq

/-- The per-policy score of `get_fallback_recommendations`: base 50, +20 on
age-range match, +15/+10 on occupation/type match, +10 on married × life,
finally `min(score, 100)`. -/
def fallback_score (u : FUser) (p : FPolicy) : Nat :=
  let score := 50
  let score :=
    match u.age with
    | some a => if p.min_age ≤ a ∧ a ≤ p.max_age then score + 20 else score
    | none => score
  let score :=
    match u.occupation with
    | some occ =>
        if (occ = "construction" ∨ occ = "manual") ∧ p.ptype = "health" then
          score + 15
        else if (occ = "office" ∨ occ = "professional") ∧
                (p.ptype = "life" ∨ p.ptype = "health") then
          score + 10
        else score
    | none => score
  let score :=
    if u.marital_status = some "married" ∧ p.ptype = "life" then score + 10
    else score
  min score 100

/-- Models `get_fallback_recommendations(user, limit)`: score the first `limit`
policies of the catalog (`for policy in policies[:limit]`), tag each with
`algorithm='Fallback_System'`, sort by score descending (stable), and return
at most `limit` of them.  Items are `(policy, score, algorithm)`. -/
def get_fallback_recommendations (u : FUser) (policies : List FPolicy)
    (limit : Nat) : List (FPolicy × Nat × String) :=
  if policies = [] then []
  else
    let scored := (policies.take limit).map
      (fun p => (p, fallback_score u p, "Fallback_System"))
    (sortDescBy (fun r => (r.2.1 : ℚ)) scored).take limit

/-! ## Content-based model
(`TrueAIRecommendationEngine.get_content_based_recommendations`) -/

/-- One stored `UserInteraction` row as read by the content model: the
profile weight is the raw `interaction_value`. -/
structure CInteraction where
  policy_id : Nat
  interaction_value : ℚ
  deriving Repr, DecidableEq

/-- Elementwise vector sum (`numpy +` on same-length arrays). -/
def vadd (v w : List ℚ) : List ℚ := List.zipWith (· + ·) v w

/-- Scalar multiple (`feature_vector * weight`). -/
def vscale (c : ℚ) (v : List ℚ) : List ℚ := v.map (fun x => c * x)

/-- Dot product. -/
def dot (v w : List ℚ) : ℚ := (List.zipWith (· * ·) v w).sum

/-- Models `total_weight` accumulated over the interactions that have stored
features: the sum of their raw `interaction_value`s. -/
def total_weight (features : Nat → Option (List ℚ)) (inters : List CInteraction) : ℚ :=
  (inters.filterMap
    (fun i => (features i.policy_id).map (fun _ => i.interaction_value))).sum

/-- The accumulation loop: `user_profile = zeros(n); for interaction: if
policy_features: user_profile += feature_vector * weight`. -/
def profile_sum (features : Nat → Option (List ℚ)) (nfeat : Nat)
    (inters : List CInteraction) : List ℚ :=
  inters.foldl
    (fun acc i =>
      match features i.policy_id with
      | some v => vadd acc (vscale i.interaction_value v)
      | none => acc)
    (List.replicate nfeat 0)

/-- The user profile: the accumulated sum, divided by `total_weight` only
when `total_weight > 0`. -/
def user_profile (features : Nat → Option (List ℚ)) (nfeat : Nat)
    (inters : List CInteraction) : List ℚ :=
  let s := profile_sum features nfeat inters
  let w := total_weight features inters
  if 0 < w then vscale w⁻¹ s else s

/-- Whether row `i` of the policy feature matrix survives the filter
`policy_id not in interacted_policies and similarity > 0`.  Policy feature
vectors are TF-IDF rows; `cosine_similarity(profile, row) > 0` holds exactly
when `dot profile row > 0` (a positive dot product forces both norms
positive, and sklearn maps zero-norm vectors to similarity 0). -/
def content_keeps (profile : List ℚ) (interacted : List Nat)
    (pid : Nat) (row : List ℚ) : Bool :=
  decide (pid ∉ interacted) && decide (0 < dot profile row)

/-- The set of policies the content model recommends (order and truncation
aside): empty when the user has no interactions (`if not user_interactions:
return []`), otherwise the rows with positive similarity whose policy is not
already interacted with.  Row `i` is published under `policy_ids[i]` when it
exists, else `i + 1`. -/
def content_kept (features : Nat → Option (List ℚ)) (nfeat : Nat)
    (inters : List CInteraction) (rows : List (List ℚ))
    (policy_ids : List Nat) : List Nat :=
  if inters = [] then []
  else
    let profile := user_profile features nfeat inters
    let interacted := inters.map (fun i => i.policy_id)
    (List.range rows.length).filterMap (fun i =>
      let pid := (policy_ids.get? i).getD (i + 1)
      match rows.get? i with
      | some row => if content_keeps profile interacted pid row then some pid else none
      | none => none)

/-! ## Collaborative training
(`TrueAIRecommendationEngine.train_collaborative_filtering`) -/

/-- Models `n_components = min(50, min(user_item_matrix.shape) - 1)`. -/
def n_components (rows cols : Nat) : Nat := min 50 (min rows cols - 1)

/-- Models `train_collaborative_filtering` over a `rows × cols` matrix.  The
`TruncatedSVD(...).fit` call is an external library call modelled by
`svdFit`, which may raise (`Except.error`).  An empty matrix returns `False`
early; any exception is caught by the enclosing `try/except`, logged, and
turned into `False`.  The result is `Except` to record that the function
itself never raises: no branch produces `.error`, and in particular
`InsufficientDataError` is never raised. -/
def train_collaborative_filtering (rows cols : Nat)
    (svdFit : Nat → Except String Unit) : Except String Bool :=
  if rows * cols = 0 then .ok false
  else
    match svdFit (n_components rows cols) with
    | .ok _ => .ok true
    | .error _ => .ok false

/-! ## Public entry points
(`AIRecommendationEngine.generate_recommendations`, `unified_app.py`, and
`TrueAIRecommendationEngine.get_ai_recommendations`) -/

/-- A recommendation dict as served to the caller. -/
structure ServedRec where
  policy : FPolicy
  score : ℚ
  algorithm : String
  deriving Repr, DecidableEq

/-- Models `get_ai_recommendations`'s body runs inside `try/except` returning `[]`,
and each sub-model getter already catches its own errors and returns `[]`.
Sub-model outcomes arrive as `Except` inputs; the function totalises them,
so the caller never sees an exception. -/
def get_ai_recommendations
    (collab content hybrid : Except String (List (Nat × ℚ)))
    (policyOf : Nat → Option FPolicy) (n : Nat) : List ServedRec :=
  let collabL := match collab with | .ok l => l | .error _ => []
  let contentL := match content with | .ok l => l | .error _ => []
  let hybridL := match hybrid with | .ok l => l | .error _ => []
  (ai_ranking collabL contentL hybridL n).filterMap (fun p =>
    match policyOf p.1 with
    | some pol => some { policy := pol, score := display_score p.2,
                         algorithm := "AI_ML_Hybrid" }
    | none => none)

/-- The user fields `generate_recommendations` reads.  `age = none` models a
falsy `user.age` (`None` or `0`), which makes `not user.age` true. -/
structure GUser where
  id : Nat
  age : Option Nat
  deriving Repr, DecidableEq

/-- The emergency fallback loop at the bottom of `generate_recommendations`:
base score 50, +20 on age match against `user.age or 25`, tagged
`algorithm='Emergency_Fallback'`. -/
def emergency_fallback (u : GUser) (policies : List FPolicy) (limit : Nat) :
    List ServedRec :=
  (policies.take limit).map (fun p =>
    let a := u.age.getD 25
    let basic_score : ℚ := 50
    let basic_score := if p.min_age ≤ a ∧ a ≤ p.max_age then basic_score + 20
      else basic_score
    { policy := p, score := basic_score, algorithm := "Emergency_Fallback" })

/-- Models `AIRecommendationEngine.generate_recommendations(user, limit)`.
`mlEngine` is whether `get_ml_engine()` returned an engine; `mlOutcome` the
result of `ml_engine.get_ai_recommendations(user.id, limit)`, which may raise
(`.error`) — the surrounding `try/except` catches it and falls through to the
emergency fallback, as it does when the ML list is empty. -/
def generate_recommendations (user : Option GUser) (mlEngine : Bool)
    (mlOutcome : Except String (List ServedRec)) (policies : List FPolicy)
    (limit : Nat) : List ServedRec :=
  match user with
  | none => []
  | some u =>
    match u.age with
    | none => []
    | some _ =>
      let mlRecs := if mlEngine then
          match mlOutcome with | .ok l => l | .error _ => []
        else []
      if mlRecs ≠ [] then mlRecs
      else emergency_fallback u policies limit

/-! ## Analysis predicates used to state the claims -/

/-- Total contribution of a sub-model list to policy `k`: the sum of the
scores filed under `k` (0 when absent).  Coincides with `subScore` when the
list's keys are distinct, which the sub-model getters guarantee. -/
def contrib (recs : List (Nat × ℚ)) (k : Nat) : ℚ :=
  ((recs.filter (fun p => p.1 = k)).map Prod.snd).sum

/-- The ordering claimed of the blended list: each adjacent pair is either
strictly descending in score, or tied with ascending policy id. -/
def score_desc_id_asc : List (Nat × ℚ) → Bool
  | [] => true
  | [_] => true
  | a :: b :: rest =>
      (decide (b.2 < a.2) || (decide (a.2 = b.2) && decide (a.1 < b.1))) &&
        score_desc_id_asc (b :: rest)

/-! # Helper lemmas -/

theorem dictGet_nil (k : Nat) : dictGet [] k = 0 := rfl

theorem dictGet_cons (p : Nat × ℚ) (d : List (Nat × ℚ)) (k : Nat) :
    dictGet (p :: d) k = if p.1 = k then p.2 else dictGet d k := by
  by_cases h : p.1 = k
  · simp [dictGet, List.find?_cons_of_pos, h]
  · rw [if_neg h]
    unfold dictGet
    rw [List.find?_cons_of_neg _ (by simpa using h)]

theorem dictAdd_cons_of_ne (q : Nat × ℚ) (d : List (Nat × ℚ)) (k : Nat) (v : ℚ)
    (hq : ¬ q.1 = k) : dictAdd (q :: d) k v = q :: dictAdd d k v := by
  by_cases hd : d.any (fun p => p.1 = k) = true
  · simp [dictAdd, hq, hd]
  · simp [dictAdd, hq, hd, dictGet_cons]

theorem dictAdd_cons_self (q : Nat × ℚ) (d : List (Nat × ℚ)) (k : Nat) (v : ℚ)
    (hq : q.1 = k) :
    dictAdd (q :: d) k v =
      (q.1, q.2 + v) :: d.map (fun p => if p.1 = k then (p.1, p.2 + v) else p) := by
  simp [dictAdd, hq]

theorem dictGet_dictAdd_self (d : List (Nat × ℚ)) (k : Nat) (v : ℚ) :
    dictGet (dictAdd d k v) k = dictGet d k + v := by
  induction d with
  | nil => simp [dictAdd, dictGet]
  | cons q d ih =>
    by_cases hq : q.1 = k
    · rw [dictAdd_cons_self q d k v hq]
      simp [dictGet_cons, hq]
    · rw [dictAdd_cons_of_ne q d k v hq, dictGet_cons, if_neg hq, ih,
        dictGet_cons, if_neg hq]

theorem dictGet_map_update_other (d : List (Nat × ℚ)) (k k' : Nat) (v : ℚ)
    (hk : ¬ k' = k) :
    dictGet (d.map (fun p => if p.1 = k then (p.1, p.2 + v) else p)) k' =
      dictGet d k' := by
  induction d with
  | nil => rfl
  | cons q d ih =>
    by_cases hq : q.1 = k
    · have hq' : ¬ q.1 = k' := by rw [hq]; exact fun h => hk h.symm
      have hk' : ¬ k = k' := fun h => hk h.symm
      simp [dictGet_cons, hq, hq', hk', ih]
    · simp [dictGet_cons, hq, ih]

theorem dictGet_append_single_other (d : List (Nat × ℚ)) (k k' : Nat) (c : ℚ)
    (hk : ¬ k' = k) : dictGet (d ++ [(k, c)]) k' = dictGet d k' := by
  induction d with
  | nil =>
    have : ¬ k = k' := fun h => hk h.symm
    simp [dictGet_cons, dictGet_nil, this]
  | cons q d ih => simp [dictGet_cons, ih]

theorem dictGet_dictAdd_other (d : List (Nat × ℚ)) (k k' : Nat) (v : ℚ)
    (hk : ¬ k' = k) : dictGet (dictAdd d k v) k' = dictGet d k' := by
  unfold dictAdd
  by_cases hd : d.any (fun p => p.1 = k) = true
  · rw [if_pos hd]
    exact dictGet_map_update_other d k k' v hk
  · rw [if_neg hd]
    exact dictGet_append_single_other d k k' _ hk

theorem dictGet_addWeighted (w : ℚ) (recs : List (Nat × ℚ))
    (d : List (Nat × ℚ)) (k : Nat) :
    dictGet (addWeighted w recs d) k = dictGet d k + w * contrib recs k := by
  induction recs generalizing d with
  | nil => simp [addWeighted, contrib]
  | cons p recs ih =>
    have hfold : addWeighted w (p :: recs) d =
        addWeighted w recs (dictAdd d p.1 (p.2 * w)) := rfl
    rw [hfold, ih]
    by_cases hp : p.1 = k
    · subst hp
      rw [dictGet_dictAdd_self]
      have : contrib (p :: recs) p.1 = p.2 + contrib recs p.1 := by
        simp [contrib, List.filter_cons]
      rw [this]; ring
    · rw [dictGet_dictAdd_other d p.1 k _ (fun h => hp h.symm)]
      have : contrib (p :: recs) k = contrib recs k := by
        simp [contrib, List.filter_cons, hp]
      rw [this]

theorem contrib_eq_subScore (recs : List (Nat × ℚ)) (k : Nat)
    (h : (recs.map Prod.fst).Nodup) : contrib recs k = subScore recs k := by
  induction recs with
  | nil => rfl
  | cons p recs ih =>
    rw [List.map_cons, List.nodup_cons] at h
    by_cases hp : p.1 = k
    · have hfilter : recs.filter (fun p => p.1 = k) = [] := by
        rw [List.filter_eq_nil_iff]
        intro q hq
        simp only [decide_eq_true_eq]
        intro hqk
        exact h.1 (by rw [hp, ← hqk]; exact List.mem_map_of_mem Prod.fst hq)
      simp [contrib, subScore, dictGet_cons, List.filter_cons, hp, hfilter]
    · have h1 : contrib (p :: recs) k = contrib recs k := by
        simp [contrib, List.filter_cons, hp]
      have h2 : subScore (p :: recs) k = subScore recs k := by
        simp [subScore, dictGet_cons, hp]
      rw [h1, h2, ih h.2]

theorem sortDescBy_sorted (f : α → ℚ) (l : List α) :
    (sortDescBy f l).Pairwise (fun a b => f b ≤ f a) :=
  List.sorted_insertionSort (descKey f) l

theorem sortDescBy_perm (f : α → ℚ) (l : List α) : (sortDescBy f l).Perm l :=
  List.perm_insertionSort (descKey f) l

/-! # Claim theorems -/

/-- C3: for every policy id in the blended output, the combined score equals
0.4 × its collaborative score + 0.3 × its content score + 0.3 × its hybrid
score, where a policy absent from a sub-model's list contributes 0 from that
sub-model; in particular a policy appearing only in the collaborative list
with raw score s has combined score exactly 0.4 × s. -/
theorem claim_C3 (collab content hybrid : List (Nat × ℚ)) (pid : Nat)
    (hc : (collab.map Prod.fst).Nodup) (ht : (content.map Prod.fst).Nodup)
    (hh : (hybrid.map Prod.fst).Nodup) :
    dictGet (combined_scores collab content hybrid) pid =
      2/5 * subScore collab pid + 3/10 * subScore content pid +
        3/10 * subScore hybrid pid ∧
    (subScore content pid = 0 → subScore hybrid pid = 0 →
      dictGet (combined_scores collab content hybrid) pid =
        2/5 * subScore collab pid) := by
  have key : dictGet (combined_scores collab content hybrid) pid =
      2/5 * subScore collab pid + 3/10 * subScore content pid +
        3/10 * subScore hybrid pid := by
    rw [combined_scores, dictGet_addWeighted, dictGet_addWeighted,
      dictGet_addWeighted, contrib_eq_subScore _ _ hc,
      contrib_eq_subScore _ _ ht, contrib_eq_subScore _ _ hh, dictGet_nil]
    ring
  exact ⟨key, fun h1 h2 => by rw [key, h1, h2]; ring⟩

/-- Witness for C3: a policy (id 1) scored by collaborative and content but
not hybrid, and one (id 2) scored by content and hybrid only. -/
theorem claim_C3_witness :
    dictGet (combined_scores [(1, (1:ℚ)/2)] [(1, (1:ℚ)/4), (2, 1)] [(2, (2:ℚ))]) 1 =
      2/5 * subScore [(1, (1:ℚ)/2)] 1 + 3/10 * subScore [(1, (1:ℚ)/4), (2, 1)] 1 +
        3/10 * subScore [(2, (2:ℚ))] 1 :=
  (claim_C3 [(1, (1:ℚ)/2)] [(1, (1:ℚ)/4), (2, 1)] [(2, (2:ℚ))] 1
    (by decide) (by decide) (by decide)).1

/-- C4: with failure threshold 5 and the recovery timeout never elapsed,
after 6 consecutive calls whose wrapped function raises `PredictionError`
the breaker is open, and the 7th call is short-circuited with the
"temporarily disabled" error without invoking the underlying function. -/
theorem claim_C4 :
    (cbFailRun initialBreaker 6).state = "open" ∧
    (cbCall (cbFailRun initialBreaker 6) 0 false true).1 = false ∧
    (cbCall (cbFailRun initialBreaker 6) 0 false true).2.1 =
      CallOutcome.circuitOpenError := by
  decide

/-- C8 counterexample: with failed storage connectivity and 4 recent errors,
the reported composite status is "degraded", not "unhealthy" — the recent-
errors check runs last and overwrites the unhealthy classification. -/
theorem claim_C8_counterexample :
    check_ml_system_health
      { ml_engine_ok := true, db_ok := false, error_log_len := 4 } = "degraded" ∧
    check_ml_system_health
      { ml_engine_ok := true, db_ok := false, error_log_len := 4 } ≠ "unhealthy" := by
  decide

/-- C8 (amended): failed storage connectivity yields "unhealthy" only when at
most 3 recent errors are present; more than 3 recent errors make the final
status "degraded", overriding an earlier unhealthy classification. -/
theorem claim_C8 (i : HealthInputs) :
    (i.db_ok = false → recent_errors_count i.error_log_len 5 ≤ 3 →
      check_ml_system_health i = "unhealthy") ∧
    (3 < recent_errors_count i.error_log_len 5 →
      check_ml_system_health i = "degraded") := by
  constructor
  · intro hdb herr
    simp [check_ml_system_health, hdb, Nat.not_lt.mpr herr]
  · intro herr
    simp [check_ml_system_health, herr]

/-- Witness for C8 (amended): storage down with 2 logged errors reports
"unhealthy"; a healthy stack with 10 logged errors reports "degraded". -/
theorem claim_C8_witness :
    check_ml_system_health
      { ml_engine_ok := true, db_ok := false, error_log_len := 2 } = "unhealthy" ∧
    check_ml_system_health
      { ml_engine_ok := true, db_ok := true, error_log_len := 10 } = "degraded" :=
  ⟨(claim_C8 _).1 rfl (by decide), (claim_C8 _).2 (by decide)⟩

/-- C2 counterexample: on a 1×1 matrix the latent dimension is 0, violating
1 ≤ k, yet `train_collaborative_filtering` raises nothing — the failing SVD
fit is caught and the function returns `False` (never
`InsufficientDataError`, which no code in the repository raises). -/
theorem claim_C2_counterexample :
    n_components 1 1 = 0 ∧
    train_collaborative_filtering 1 1
      (fun k => if k = 0 then Except.error "ValueError" else Except.ok ()) =
      Except.ok false :=
  ⟨rfl, rfl⟩

/-- C2 (amended): collaborative training uses latent dimension
k = min(50, min(rows, cols) − 1); the training function never propagates an
exception (it returns a boolean for every input), and when the underlying SVD
fit fails — as on a k-violating matrix — the error is caught and `False` is
returned rather than `InsufficientDataError` being raised. -/
theorem claim_C2 (rows cols : Nat) (svdFit : Nat → Except String Unit) :
    n_components rows cols = min 50 (min rows cols - 1) ∧
    (∃ b, train_collaborative_filtering rows cols svdFit = Except.ok b) ∧
    (∀ e, 0 < rows * cols → svdFit (n_components rows cols) = Except.error e →
      train_collaborative_filtering rows cols svdFit = Except.ok false) := by
  refine ⟨rfl, ?_, ?_⟩
  · unfold train_collaborative_filtering
    by_cases h : rows * cols = 0
    · exact ⟨false, by rw [if_pos h]⟩
    · rw [if_neg h]
      cases hfit : svdFit (n_components rows cols) with
      | ok u => exact ⟨true, rfl⟩
      | error e => exact ⟨false, rfl⟩
  · intro e hpos hfit
    unfold train_collaborative_filtering
    rw [if_neg (Nat.pos_iff_ne_zero.mp hpos), hfit]

/-- Witness for C2 (amended): the 1×1 matrix with a failing fit returns
`Except.ok false`. -/
theorem claim_C2_witness :
    train_collaborative_filtering 1 1 (fun _ => Except.error "ValueError") =
      Except.ok false :=
  (claim_C2 1 1 (fun _ => Except.error "ValueError")).2.2 "ValueError"
    (by decide) rfl

/-- C10: training keeps every interaction row, the weighted score is
interaction_value × type weight, and any interaction type outside the six
known ones — including 'api_call' and 'feedback' — gets the default weight
1.0 rather than being rejected. -/
theorem claim_C10 :
    (∀ rows, collect_training_data rows =
      rows.map (fun r => (r, r.interaction_value * typeWeight r.interaction_type))) ∧
    (∀ rows, (collect_training_data rows).map Prod.fst = rows) ∧
    (∀ t, t ∉ ["view", "click", "add_to_cart", "purchase", "rate", "dismiss"] →
      typeWeight t = 1) ∧
    typeWeight "api_call" = 1 ∧ typeWeight "feedback" = 1 := by
  refine ⟨fun rows => rfl, fun rows => ?_, fun t ht => ?_, by decide, by decide⟩
  · rw [collect_training_data, List.map_map]
    exact List.map_id rows
  · simp only [List.mem_cons, List.not_mem_nil, or_false, not_or] at ht
    obtain ⟨h1, h2, h3, h4, h5, h6⟩ := ht
    simp [typeWeight, interaction_weights, List.find?,
      Ne.symm h1, Ne.symm h2, Ne.symm h3, Ne.symm h4, Ne.symm h5, Ne.symm h6]

/-- Witness for C10: the tracker-written type 'api_call' is outside the known
set yet gets weight 1. -/
theorem claim_C10_witness : typeWeight "api_call" = 1 :=
  claim_C10.2.2.1 "api_call" (by decide)

/-- C7 counterexample: two policies tied at combined score 3/25 — one from
the collaborative list (id 10) and one from the content list (id 2).  Python's
stable sort keeps dict insertion order among ties, so id 10 precedes id 2,
violating the claimed tie-break by policy_id ascending. -/
theorem claim_C7_counterexample :
    ai_ranking [(10, 3/10)] [(2, 2/5)] [] 10 = [(10, 3/25), (2, 3/25)] ∧
    score_desc_id_asc (ai_ranking [(10, 3/10)] [(2, 2/5)] [] 10) = false := by
  have h : ai_ranking [(10, 3/10)] [(2, 2/5)] [] 10 = [(10, 3/25), (2, 3/25)] := by
    norm_num [ai_ranking, combined_scores, addWeighted, dictAdd, dictGet,
      sortDescBy, descKey, List.insertionSort, List.orderedInsert, List.find?]
  refine ⟨h, ?_⟩
  rw [h]
  norm_num [score_desc_id_asc]

/-- C7 (amended): the blended list is sorted by combined score descending,
with ties kept in dict insertion order (collaborative entries first, then
content, then hybrid) rather than by policy_id; at most N items are returned,
N defaults to 10 in `get_ai_recommendations`, and the HTTP route caps the
requested N at 50. -/
theorem claim_C7 (collab content hybrid : List (Nat × ℚ)) (n : Nat) :
    (ai_ranking collab content hybrid n).Pairwise (fun a b => b.2 ≤ a.2) ∧
    (ai_ranking collab content hybrid n).length ≤ n ∧
    default_n_recommendations = 10 ∧ (∀ r, api_limit r ≤ 50) := by
  refine ⟨?_, ?_, rfl, fun r => min_le_right r 50⟩
  · exact List.Pairwise.sublist (List.take_sublist _ _)
      (sortDescBy_sorted (fun p : Nat × ℚ => p.2) _)
  · exact List.length_take_le _ _

/-- C9: the rule-based fallback recommender only ever returns policies drawn
from the first `limit` catalog entries (`policies[:limit]` is scored before
sorting), each tagged 'Fallback_System', and the returned list is sorted by
score descending — a policy at catalog position ≥ limit is never returned,
whatever its score would have been. -/
theorem claim_C9 (u : FUser) (policies : List FPolicy) (limit : Nat) :
    (∀ x ∈ get_fallback_recommendations u policies limit,
      x.1 ∈ policies.take limit ∧ x.2.2 = "Fallback_System") ∧
    (get_fallback_recommendations u policies limit).Pairwise
      (fun a b => ((b.2.1 : ℚ)) ≤ ((a.2.1 : ℚ))) := by
  unfold get_fallback_recommendations
  by_cases hp : policies = []
  · simp [hp]
  · rw [if_neg hp]
    constructor
    · intro x hx
      have hx1 := List.take_subset limit _ hx
      have hx2 := (sortDescBy_perm (fun r : FPolicy × Nat × String => ((r.2.1 : ℚ)))
        ((policies.take limit).map
          (fun p => (p, fallback_score u p, "Fallback_System")))).mem_iff.mp hx1
      obtain ⟨p, hpmem, rfl⟩ := List.mem_map.mp hx2
      exact ⟨hpmem, rfl⟩
    · exact List.Pairwise.sublist (List.take_sublist _ _)
        (sortDescBy_sorted (fun r : FPolicy × Nat × String => ((r.2.1 : ℚ))) _)

/-- Witness for C9: a married 30-year-old office worker, a catalog whose
first policy (id 1) scores only the base 50 and whose second policy (id 2)
would score 90, limit 1 — policy 2 is still never returned. -/
theorem claim_C9_witness :
    get_fallback_recommendations
      { age := some 30, occupation := some "office", marital_status := some "married" }
      [{ id := 1, min_age := 60, max_age := 70, ptype := "auto" },
       { id := 2, min_age := 18, max_age := 65, ptype := "life" }] 1 =
      [({ id := 1, min_age := 60, max_age := 70, ptype := "auto" }, 50,
        "Fallback_System")] ∧
    fallback_score
      { age := some 30, occupation := some "office", marital_status := some "married" }
      { id := 2, min_age := 18, max_age := 65, ptype := "life" } = 90 ∧
    (∀ x ∈ get_fallback_recommendations
      { age := some 30, occupation := some "office", marital_status := some "married" }
      [{ id := 1, min_age := 60, max_age := 70, ptype := "auto" },
       { id := 2, min_age := 18, max_age := 65, ptype := "life" }] 1,
      x.1 ∈ [{ id := 1, min_age := 60, max_age := 70, ptype := "auto" },
             ({ id := 2, min_age := 18, max_age := 65, ptype := "life" } : FPolicy)].take 1 ∧
      x.2.2 = "Fallback_System") :=
  ⟨by decide, by decide, (claim_C9 _ _ _).1⟩

/-- C6: every score served to a user lies in [0, 100]: the blended ML path
clamps `score × 100` with `min(100, max(0, ·))`, the rule-based fallback
scores are capped by `min(score, 100)` and built from nonnegative additions,
and the emergency fallback serves 50 or 70. -/
theorem claim_C6 :
    (∀ s : ℚ, 0 ≤ display_score s ∧ display_score s ≤ 100) ∧
    (∀ collab content hybrid policyOf n,
      ∀ r ∈ get_ai_recommendations collab content hybrid policyOf n,
        0 ≤ r.score ∧ r.score ≤ 100) ∧
    (∀ u policies limit, ∀ x ∈ get_fallback_recommendations u policies limit,
      0 ≤ x.2.1 ∧ x.2.1 ≤ 100) ∧
    (∀ u policies limit, ∀ r ∈ emergency_fallback u policies limit,
      0 ≤ r.score ∧ r.score ≤ 100) := by
  have hds : ∀ s : ℚ, 0 ≤ display_score s ∧ display_score s ≤ 100 := by
    intro s
    exact ⟨le_min (by norm_num) (le_max_left 0 _), min_le_left _ _⟩
  refine ⟨hds, ?_, ?_, ?_⟩
  · intro collab content hybrid policyOf n r hr
    unfold get_ai_recommendations at hr
    obtain ⟨p, hp, hr⟩ := List.mem_filterMap.mp hr
    cases hpol : policyOf p.1 with
    | none => rw [hpol] at hr; cases hr
    | some pol =>
      rw [hpol] at hr
      cases hr
      exact hds p.2
  · intro u policies limit x hx
    refine ⟨Nat.zero_le _, ?_⟩
    unfold get_fallback_recommendations at hx
    by_cases hp : policies = []
    · rw [if_pos hp] at hx; cases hx
    · rw [if_neg hp] at hx
      have hx2 := (sortDescBy_perm _ _).mem_iff.mp (List.take_subset _ _ hx)
      obtain ⟨p, hpmem, rfl⟩ := List.mem_map.mp hx2
      exact min_le_right _ 100
  · intro u policies limit r hr
    obtain ⟨p, hpmem, rfl⟩ := List.mem_map.mp hr
    by_cases hage : p.min_age ≤ u.age.getD 25 ∧ u.age.getD 25 ≤ p.max_age
    · simp only [emergency_fallback, if_pos hage]
      norm_num
    · simp only [emergency_fallback, if_neg hage]
      norm_num

theorem sum_nonpos_all_zero {l : List ℚ} (h : ∀ x ∈ l, 0 ≤ x) (hs : l.sum ≤ 0) :
    ∀ x ∈ l, x = 0 := by
  induction l with
  | nil => intro x hx; cases hx
  | cons a l ih =>
    rw [List.sum_cons] at hs
    have ha : 0 ≤ a := h a (List.mem_cons_self a l)
    have hl : ∀ x ∈ l, 0 ≤ x := fun x hx => h x (List.mem_cons_of_mem a hx)
    have hls : 0 ≤ l.sum := List.sum_nonneg hl
    intro x hx
    rcases List.mem_cons.mp hx with rfl | hx
    · linarith
    · exact ih hl (by linarith) x hx

theorem vadd_replicate_zero_vscale_zero (n : Nat) (v : List ℚ) (h : n ≤ v.length) :
    vadd (List.replicate n 0) (vscale 0 v) = List.replicate n 0 := by
  induction n generalizing v with
  | zero => simp [vadd]
  | succ n ih =>
    cases v with
    | nil => simp at h
    | cons x v =>
      rw [List.length_cons] at h
      have hrec := ih v (Nat.succ_le_succ_iff.mp h)
      simp only [List.replicate_succ, vscale, List.map_cons, vadd,
        List.zipWith_cons_cons] at hrec ⊢
      rw [hrec]
      norm_num

theorem dot_replicate_zero (n : Nat) (w : List ℚ) :
    dot (List.replicate n 0) w = 0 := by
  induction n generalizing w with
  | zero => simp [dot]
  | succ n ih =>
    cases w with
    | nil => simp [dot]
    | cons x w =>
      have hrec := ih w
      simp only [List.replicate_succ, dot, List.zipWith_cons_cons,
        List.sum_cons] at hrec ⊢
      rw [hrec]
      ring

theorem profile_sum_of_zero_weights (features : Nat → Option (List ℚ))
    (nfeat : Nat) (inters : List CInteraction)
    (hz : ∀ i ∈ inters, ∀ v, features i.policy_id = some v →
      i.interaction_value = 0 ∧ nfeat ≤ v.length) :
    profile_sum features nfeat inters = List.replicate nfeat 0 := by
  induction inters with
  | nil => rfl
  | cons i rest ih =>
    have hstep : (match features i.policy_id with
        | some v => vadd (List.replicate nfeat 0) (vscale i.interaction_value v)
        | none => List.replicate nfeat 0) = List.replicate nfeat 0 := by
      cases hf : features i.policy_id with
      | none => rfl
      | some v =>
        obtain ⟨hz0, hlen⟩ := hz i (List.mem_cons_self i rest) v hf
        rw [hz0]
        exact vadd_replicate_zero_vscale_zero nfeat v hlen
    have hcons : profile_sum features nfeat (i :: rest) =
        profile_sum features nfeat rest := by
      unfold profile_sum
      rw [List.foldl_cons]
      congr 1
    rw [hcons]
    exact ih (fun j hj v hf => hz j (List.mem_cons_of_mem i hj) v hf)

/-- C5 counterexample: with interactions of weight +1 on policy 1 and −1 on
policy 2, the total weight is 0 (≤ 0) yet the profile is the unnormalized sum
[1, −1], not the zero vector, and policy 3 (vector [1, 0], dot product 1 > 0)
IS recommended — the code skips the division instead of zeroing the profile. -/
theorem claim_C5_counterexample :
    total_weight
      (fun pid => if pid = 1 then some [1, 0] else if pid = 2 then some [0, 1]
        else if pid = 3 then some [1, 0] else none)
      [⟨1, 1⟩, ⟨2, -1⟩] ≤ 0 ∧
    user_profile
      (fun pid => if pid = 1 then some [1, 0] else if pid = 2 then some [0, 1]
        else if pid = 3 then some [1, 0] else none)
      2 [⟨1, 1⟩, ⟨2, -1⟩] ≠ List.replicate 2 0 ∧
    content_kept
      (fun pid => if pid = 1 then some [1, 0] else if pid = 2 then some [0, 1]
        else if pid = 3 then some [1, 0] else none)
      2 [⟨1, 1⟩, ⟨2, -1⟩] [[1, 0], [0, 1], [1, 0]] [1, 2, 3] ≠ [] := by
  refine ⟨?_, ?_, ?_⟩
  · norm_num [total_weight, List.filterMap_cons, List.filterMap_nil]
  · norm_num [user_profile, total_weight, profile_sum, vadd, vscale,
      List.filterMap_cons, List.filterMap_nil, List.foldl_cons, List.foldl_nil,
      List.replicate]
  · norm_num [content_kept, content_keeps, user_profile, total_weight,
      profile_sum, vadd, vscale, dot, List.range_succ,
      List.filterMap_cons, List.filterMap_nil, List.foldl_cons, List.foldl_nil,
      List.replicate, List.zipWith_cons_cons, List.sum_cons, List.sum_nil]
    exact List.cons_ne_nil _ _

/-- C5 (amended): a user with zero interactions gets the empty list; when the
total weight is not positive the profile is left as the unnormalized weighted
sum (the division is skipped), which need not be the zero vector; when
additionally no interaction has negative weight (so every contribution is
zero) the profile IS the zero vector and no policy attains positive cosine
similarity, so the recommendation list is empty. -/
theorem claim_C5 (features : Nat → Option (List ℚ)) (nfeat : Nat)
    (inters : List CInteraction) (rows : List (List ℚ))
    (policy_ids : List Nat) :
    content_kept features nfeat [] rows policy_ids = [] ∧
    (¬ 0 < total_weight features inters →
      user_profile features nfeat inters = profile_sum features nfeat inters) ∧
    ((∀ i ∈ inters, 0 ≤ i.interaction_value) →
      total_weight features inters ≤ 0 →
      (∀ i ∈ inters, nfeat ≤ ((features i.policy_id).map List.length).getD nfeat) →
      user_profile features nfeat inters = List.replicate nfeat 0 ∧
      content_kept features nfeat inters rows policy_ids = []) := by
  refine ⟨by simp [content_kept], ?_, ?_⟩
  · intro hw
    simp [user_profile, hw]
  · intro hpos hw hlen
    have hall : ∀ i ∈ inters, ∀ v, features i.policy_id = some v →
        i.interaction_value = 0 ∧ nfeat ≤ v.length := by
      intro i hi v hf
      refine ⟨?_, ?_⟩
      · have hmem : i.interaction_value ∈ inters.filterMap
            (fun j => (features j.policy_id).map (fun _ => j.interaction_value)) := by
          rw [List.mem_filterMap]
          exact ⟨i, hi, by rw [hf]; rfl⟩
        have hnn : ∀ x ∈ inters.filterMap
            (fun j => (features j.policy_id).map (fun _ => j.interaction_value)),
            0 ≤ x := by
          intro x hx
          rw [List.mem_filterMap] at hx
          obtain ⟨j, hj, hjx⟩ := hx
          cases hfj : features j.policy_id with
          | none => rw [hfj] at hjx; cases hjx
          | some w =>
            rw [hfj] at hjx
            cases hjx
            exact hpos j hj
        exact sum_nonpos_all_zero hnn hw _ hmem
      · have := hlen i hi
        rw [hf] at this
        simpa using this
    have hprof : profile_sum features nfeat inters = List.replicate nfeat 0 :=
      profile_sum_of_zero_weights features nfeat inters hall
    have huser : user_profile features nfeat inters = List.replicate nfeat 0 := by
      unfold user_profile
      rw [if_neg (not_lt.mpr hw), hprof]
    refine ⟨huser, ?_⟩
    unfold content_kept
    by_cases hi : inters = []
    · rw [if_pos hi]
    · rw [if_neg hi, huser, List.filterMap_eq_nil_iff]
      intro a ha
      cases hrow : rows.get? a with
      | none => simp [hrow]
      | some row => simp [hrow, content_keeps, dot_replicate_zero]

/-- Witness for C5 (amended): one interaction of weight 0 on policy 1 — the
profile is the zero vector and nothing is recommended. -/
theorem claim_C5_witness :
    user_profile
      (fun pid => if pid = 1 then some [1, 0] else if pid = 2 then some [0, 1]
        else if pid = 3 then some [1, 0] else none)
      2 [⟨1, 0⟩] = List.replicate 2 0 ∧
    content_kept
      (fun pid => if pid = 1 then some [1, 0] else if pid = 2 then some [0, 1]
        else if pid = 3 then some [1, 0] else none)
      2 [⟨1, 0⟩] [[1, 0], [0, 1], [1, 0]] [1, 2, 3] = [] :=
  (claim_C5
      (fun pid => if pid = 1 then some [1, 0] else if pid = 2 then some [0, 1]
        else if pid = 3 then some [1, 0] else none)
      2 [⟨1, 0⟩] [[1, 0], [0, 1], [1, 0]] [1, 2, 3]).2.2
    (by intro i hi; fin_cases hi; norm_num)
    (by norm_num [total_weight, List.filterMap_cons, List.filterMap_nil])
    (by intro i hi; fin_cases hi; norm_num)

/-- Witness for C7 (amended): a concrete blend of one collaborative and one
hybrid result. -/
theorem claim_C7_witness :
    (ai_ranking [(1, 1)] [] [(2, 1)] 10).Pairwise
      (fun a b => b.2 ≤ a.2) ∧
    (ai_ranking [(1, 1)] [] [(2, 1)] 10).length ≤ 10 ∧
    default_n_recommendations = 10 ∧ (∀ r, api_limit r ≤ 50) :=
  claim_C7 [(1, 1)] [] [(2, 1)] 10

/-- Witness for C6: concrete instantiations of every served-score bound. -/
theorem claim_C6_witness :
    (0 ≤ display_score 2 ∧ display_score 2 ≤ 100) ∧
    (∀ r ∈ get_ai_recommendations (Except.ok [(1, 2)]) (Except.ok [])
        (Except.ok [])
        (fun _ => some { id := 1, min_age := 18, max_age := 65, ptype := "health" }) 10,
      0 ≤ r.score ∧ r.score ≤ 100) ∧
    (∀ x ∈ get_fallback_recommendations
        { age := some 30, occupation := none, marital_status := none }
        [{ id := 1, min_age := 18, max_age := 65, ptype := "health" }] 10,
      0 ≤ x.2.1 ∧ x.2.1 ≤ 100) :=
  ⟨claim_C6.1 2,
   claim_C6.2.1 (Except.ok [(1, 2)]) (Except.ok []) (Except.ok [])
     (fun _ => some { id := 1, min_age := 18, max_age := 65, ptype := "health" }) 10,
   claim_C6.2.2.1 { age := some 30, occupation := none, marital_status := none }
     [{ id := 1, min_age := 18, max_age := 65, ptype := "health" }] 10⟩

/-- C1 counterexample: a valid user (age 30) with the ML engine available but
returning an empty list — `generate_recommendations` serves its own emergency
list tagged 'Emergency_Fallback', not the 'Fallback_System' list (the
`MLFallbackSystem` recommender is never called by this entry point). -/
theorem claim_C1_counterexample :
    generate_recommendations (some { id := 1, age := some 30 }) true
        (Except.ok []) [{ id := 1, min_age := 18, max_age := 65, ptype := "health" }] 9 =
      [{ policy := { id := 1, min_age := 18, max_age := 65, ptype := "health" },
         score := 70, algorithm := "Emergency_Fallback" }] ∧
    ("Emergency_Fallback" : String) ≠ "Fallback_System" := by
  constructor
  · norm_num [generate_recommendations, emergency_fallback]
  · decide

/-- C1 (amended): the entry points never raise — `generate_recommendations`
returns a list for every input, including ML errors; when the ML path yields
nothing (engine unavailable, empty result, or an exception, e.g. with the
circuit breaker open) it returns the in-function emergency fallback list,
whose every item is tagged algorithm='Emergency_Fallback' (not
'Fallback_System'); when the ML path yields a non-empty list that list is
returned; and `get_ai_recommendations` turns sub-model failures into an
empty list rather than an exception. -/
theorem claim_C1 (u : GUser) (a : Nat) (hage : u.age = some a)
    (mlEngine : Bool) (mlOutcome : Except String (List ServedRec))
    (policies : List FPolicy) (limit : Nat) :
    (mlEngine = false ∨ mlOutcome = Except.ok [] ∨ (∃ e, mlOutcome = Except.error e) →
      generate_recommendations (some u) mlEngine mlOutcome policies limit =
        emergency_fallback u policies limit) ∧
    (∀ r ∈ emergency_fallback u policies limit,
      r.algorithm = "Emergency_Fallback") ∧
    (∀ recs, mlEngine = true → mlOutcome = Except.ok recs → recs ≠ [] →
      generate_recommendations (some u) mlEngine mlOutcome policies limit = recs) ∧
    (∀ e1 e2 e3 policyOf n,
      get_ai_recommendations (Except.error e1) (Except.error e2)
        (Except.error e3) policyOf n = []) := by
  refine ⟨?_, ?_, ?_, fun e1 e2 e3 policyOf n => by
    simp [get_ai_recommendations, ai_ranking, combined_scores, addWeighted,
      sortDescBy, List.insertionSort]⟩
  · intro hml
    rcases hml with hml | hml | ⟨e, hml⟩
    · subst hml
      simp [generate_recommendations, hage]
    · subst hml
      cases mlEngine <;> simp [generate_recommendations, hage]
    · subst hml
      cases mlEngine <;> simp [generate_recommendations, hage]
  · intro r hr
    obtain ⟨p, hpmem, rfl⟩ := List.mem_map.mp hr
    rfl
  · intro recs hEng hOut hne
    subst hEng; subst hOut
    simp [generate_recommendations, hage, hne]

/-- Witness for C1 (amended): a 40-year-old user whose ML call raises — the
result is exactly the emergency fallback list. -/
theorem claim_C1_witness :
    generate_recommendations (some { id := 2, age := some 40 }) true
        (Except.error "PredictionError")
        [{ id := 7, min_age := 18, max_age := 65, ptype := "life" }] 9 =
      emergency_fallback { id := 2, age := some 40 }
        [{ id := 7, min_age := 18, max_age := 65, ptype := "life" }] 9 :=
  (claim_C1 { id := 2, age := some 40 } 40 rfl true
      (Except.error "PredictionError")
      [{ id := 7, min_age := 18, max_age := 65, ptype := "life" }] 9).1
    (Or.inr (Or.inr ⟨"PredictionError", rfl⟩))

end InsuMyWay
